import Mathlib

/-!
Formal model of the AT-502B performance calculator
(src/at502_performance_app.py).  The floating-point arithmetic of the
source is modelled over the real numbers: the Python power operator
becomes `Real.rpow`, `np.sqrt` becomes `Real.sqrt`, `max`/`min` become
the real `max`/`min`, and the runway-condition dictionary together with
its `.get condition 1.40` access becomes an association list read with
`List.lookup` and `Option.getD`.
-/

noncomputable section

/-- Base takeoff ground roll in ft (sea level, ISA 15 C, no wind, 9400 lbs). -/
def BASE_TAKEOFF_GROUND_ROLL_FT : ℝ := 1140

/-- Base takeoff distance over a 50 ft obstacle, ft. -/
def BASE_TAKEOFF_TO_50FT_FT : ℝ := 2600

/-- Base landing ground roll, ft. -/
def BASE_LANDING_GROUND_ROLL_FT : ℝ := 600

/-- Base landing distance from 50 ft, ft. -/
def BASE_LANDING_TO_50FT_FT : ℝ := 1350

/-- Base climb rate, fpm. -/
def BASE_CLIMB_RATE_FPM : ℝ := 870

/-- Base stall speed flaps down, mph, at 8000 lbs. -/
def BASE_STALL_FLAPS_DOWN_MPH : ℝ := 68

/-- Maximum takeoff weight, lbs. -/
def MAX_TAKEOFF_WEIGHT_LBS : ℝ := 9400

/-- Maximum landing weight, lbs. -/
def MAX_LANDING_WEIGHT_LBS : ℝ := 8000

/-- Runway condition performance factors (multipliers), as in the source
dictionary `RUNWAY_CONDITION_FACTORS`. -/
def RUNWAY_CONDITION_FACTORS : List (String × ℝ) :=
  [("Dry hard surface", 1.00),
   ("Wet hard surface", 1.25),
   ("Standing water", 1.60),
   ("Grass", 1.70),
   ("Dirt or gravel", 1.15),
   ("Rough with potholes", 1.55),
   ("Poor surface", 1.40)]

/-- `calculate_density_altitude(pressure_alt_ft, oat_c)` of the source:
ISA temperature at altitude, then DA from the temperature deviation. -/
def calculate_density_altitude (pressure_alt_ft oat_c : ℝ) : ℝ :=
  let isa_temp_c := 15 - (2 * pressure_alt_ft / 1000)
  pressure_alt_ft + (120 * (oat_c - isa_temp_c))

/-- `adjust_for_weight(value, current_weight, base_weight, exponent=1.5)` of the
source; the Python default `exponent=1.5` is passed explicitly at call sites. -/
def adjust_for_weight (value current_weight base_weight exponent : ℝ) : ℝ :=
  value * (current_weight / base_weight) ^ exponent

/-- `adjust_for_wind(value, wind_kts)` of the source: headwind positive reduces
distance, factor floored at 50 percent. -/
def adjust_for_wind (value wind_kts : ℝ) : ℝ :=
  let factor := 1 - (0.1 * wind_kts / 9)
  value * max factor 0.5

/-- `adjust_for_da(value, da_ft)` of the source: about 7 percent per 1000 ft DA. -/
def adjust_for_da (value da_ft : ℝ) : ℝ :=
  let factor := 1 + (0.07 * da_ft / 1000)
  value * factor

/-- `adjust_for_runway_condition(value, condition)` of the source: factor from
the dictionary with fallback 1.40 for unknown labels. -/
def adjust_for_runway_condition (value : ℝ) (condition : String) : ℝ :=
  let factor := (RUNWAY_CONDITION_FACTORS.lookup condition).getD 1.40
  value * factor

/-- `compute_takeoff(pressure_alt_ft, oat_c, weight_lbs, wind_kts,
runway_condition)` of the source: weight (exponent 1.5), DA, wind and runway
condition adjustments applied in that order to both baseline constants. -/
def compute_takeoff (pressure_alt_ft oat_c weight_lbs wind_kts : ℝ)
    (runway_condition : String) : ℝ × ℝ :=
  let da_ft := calculate_density_altitude pressure_alt_ft oat_c
  let ground_roll := adjust_for_weight BASE_TAKEOFF_GROUND_ROLL_FT weight_lbs MAX_TAKEOFF_WEIGHT_LBS 1.5
  let ground_roll := adjust_for_da ground_roll da_ft
  let ground_roll := adjust_for_wind ground_roll wind_kts
  let ground_roll := adjust_for_runway_condition ground_roll runway_condition
  let to_50ft := adjust_for_weight BASE_TAKEOFF_TO_50FT_FT weight_lbs MAX_TAKEOFF_WEIGHT_LBS 1.5
  let to_50ft := adjust_for_da to_50ft da_ft
  let to_50ft := adjust_for_wind to_50ft wind_kts
  let to_50ft := adjust_for_runway_condition to_50ft runway_condition
  (ground_roll, to_50ft)

/-- `compute_landing(pressure_alt_ft, oat_c, weight_lbs, wind_kts,
runway_condition)` of the source: weight first clamped to the maximum landing
weight, then the same adjustment chain with exponent 1.0. -/
def compute_landing (pressure_alt_ft oat_c weight_lbs wind_kts : ℝ)
    (runway_condition : String) : ℝ × ℝ :=
  let weight_lbs := min weight_lbs MAX_LANDING_WEIGHT_LBS
  let da_ft := calculate_density_altitude pressure_alt_ft oat_c
  let ground_roll := adjust_for_weight BASE_LANDING_GROUND_ROLL_FT weight_lbs MAX_LANDING_WEIGHT_LBS 1.0
  let ground_roll := adjust_for_da ground_roll da_ft
  let ground_roll := adjust_for_wind ground_roll wind_kts
  let ground_roll := adjust_for_runway_condition ground_roll runway_condition
  let from_50ft := adjust_for_weight BASE_LANDING_TO_50FT_FT weight_lbs MAX_LANDING_WEIGHT_LBS 1.0
  let from_50ft := adjust_for_da from_50ft da_ft
  let from_50ft := adjust_for_wind from_50ft wind_kts
  let from_50ft := adjust_for_runway_condition from_50ft runway_condition
  (ground_roll, from_50ft)

/-- `compute_climb_rate(pressure_alt_ft, oat_c, weight_lbs)` of the source:
weight adjustment with exponent -1, a flat 5 percent per 1000 ft DA penalty,
result floored at 0. -/
def compute_climb_rate (pressure_alt_ft oat_c weight_lbs : ℝ) : ℝ :=
  let da_ft := calculate_density_altitude pressure_alt_ft oat_c
  let climb := adjust_for_weight BASE_CLIMB_RATE_FPM weight_lbs MAX_TAKEOFF_WEIGHT_LBS (-1)
  let climb := climb * (1 - (0.05 * da_ft / 1000))
  max climb 0

/-- `compute_stall_speed(weight_lbs)` of the source: base stall speed scaled by
the square root of the weight ratio. -/
def compute_stall_speed (weight_lbs : ℝ) : ℝ :=
  BASE_STALL_FLAPS_DOWN_MPH * Real.sqrt (weight_lbs / MAX_LANDING_WEIGHT_LBS)

/-- `compute_weight_balance(empty_weight_lbs, fuel_gal, hopper_gal,
pilot_weight_lbs)` of the source: total weight and a status string. -/
def compute_weight_balance (empty_weight_lbs fuel_gal hopper_gal pilot_weight_lbs : ℝ) :
    ℝ × String :=
  let fuel_weight := fuel_gal * 6.0
  let hopper_weight := hopper_gal * 8.0
  let total_weight := empty_weight_lbs + fuel_weight + hopper_weight + pilot_weight_lbs
  let status := if total_weight ≤ MAX_TAKEOFF_WEIGHT_LBS then "Within limits" else "Overweight!"
  let status := if total_weight > MAX_LANDING_WEIGHT_LBS
    then status ++ " (Exceeds max landing weight)" else status
  (total_weight, status)

/-- Modelled from the spec: the repository has a JSON-backed preference store
mapping an item identifier string to a runway-condition string, absent from the
available sources.  The store state is the decoded JSON object, an association
list; a write fully overwrites the entry for the item. -/
def save_runway_condition (store : List (String × String)) (item condition : String) :
    List (String × String) :=
  (item, condition) :: store.filter (fun p => p.1 ≠ item)

/-- Modelled from the spec: loading the runway condition stored for an item
identifier, absent (`none`) when the identifier was never saved, with no
exception path. -/
def load_runway_condition (store : List (String × String)) (item : String) :
    Option String :=
  store.lookup item

end

/-- C1: at pressure altitude 0 ft, OAT 15 C, weight 9400 lbs, wind 0 kts and
condition "Dry hard surface", the density altitude is 0 and `compute_takeoff`
returns exactly the baseline pair (1140 ft, 2600 ft). -/
theorem takeoff_baseline_scenario :
    calculate_density_altitude 0 15 = 0 ∧
    compute_takeoff 0 15 9400 0 "Dry hard surface" = (1140, 2600) := by
  constructor
  · simp [calculate_density_altitude]
  · have h1 : ((9400 : ℝ) / 9400) ^ (1.5 : ℝ) = 1 := by
      norm_num
    simp only [compute_takeoff, adjust_for_weight, adjust_for_da, adjust_for_wind,
      adjust_for_runway_condition, calculate_density_altitude,
      BASE_TAKEOFF_GROUND_ROLL_FT, BASE_TAKEOFF_TO_50FT_FT, MAX_TAKEOFF_WEIGHT_LBS,
      RUNWAY_CONDITION_FACTORS, List.lookup]
    rw [h1]
    norm_num [Prod.ext_iff]

/-! Helper lemmas for the takeoff monotonicity analysis. -/

theorem rpow_threeHalves_nonneg (x : ℝ) : 0 ≤ x ^ (1.5 : ℝ) := by
  rcases le_or_lt 0 x with hx | hx
  · exact Real.rpow_nonneg hx _
  · rw [Real.rpow_def_of_neg hx]
    have hc : Real.cos (1.5 * Real.pi) = 0 := by
      have h15 : (1.5 : ℝ) * Real.pi = Real.pi + Real.pi / 2 := by ring
      rw [h15, Real.cos_add, Real.cos_pi, Real.sin_pi, Real.cos_pi_div_two]
      ring
    rw [hc, mul_zero]

theorem runway_factor_pos (c : String) :
    0 < ((RUNWAY_CONDITION_FACTORS.lookup c).getD 1.40 : ℝ) := by
  simp only [RUNWAY_CONDITION_FACTORS, List.lookup]
  repeat' split
  all_goals norm_num

theorem wind_factor_nonneg (wind_kts : ℝ) : (0 : ℝ) ≤ max (1 - 0.1 * wind_kts / 9) 0.5 :=
  le_trans (by norm_num) (le_max_right _ _)

theorem takeoff_fst_eq (p o w wind : ℝ) (c : String) :
    (compute_takeoff p o w wind c).1 =
      BASE_TAKEOFF_GROUND_ROLL_FT * (w / MAX_TAKEOFF_WEIGHT_LBS) ^ (1.5 : ℝ) *
        (1 + 0.07 * calculate_density_altitude p o / 1000) *
        max (1 - 0.1 * wind / 9) 0.5 *
        ((RUNWAY_CONDITION_FACTORS.lookup c).getD 1.40) := rfl

theorem takeoff_snd_eq (p o w wind : ℝ) (c : String) :
    (compute_takeoff p o w wind c).2 =
      BASE_TAKEOFF_TO_50FT_FT * (w / MAX_TAKEOFF_WEIGHT_LBS) ^ (1.5 : ℝ) *
        (1 + 0.07 * calculate_density_altitude p o / 1000) *
        max (1 - 0.1 * wind / 9) 0.5 *
        ((RUNWAY_CONDITION_FACTORS.lookup c).getD 1.40) := rfl

/-- C2 counterexample: with OAT -150 C at sea level the density-altitude factor
is negative (DA = -19800 ft, factor 1 - 1.386), so raising the weight from
0 lbs to 9400 lbs strictly lowers the takeoff ground roll: the claimed
monotonicity in gross weight for weight at least 0 fails as stated. -/
theorem takeoff_weight_monotone_cex :
    (0 : ℝ) ≤ 9400 ∧
    ¬ ((compute_takeoff 0 (-150) 0 0 "Dry hard surface").1 ≤
       (compute_takeoff 0 (-150) 9400 0 "Dry hard surface").1) := by
  have hz : ((0 : ℝ) / 9400) ^ (1.5 : ℝ) = 0 := by
    rw [show ((0 : ℝ) / 9400) = 0 by norm_num]
    exact Real.zero_rpow (by norm_num)
  have ho : ((9400 : ℝ) / 9400) ^ (1.5 : ℝ) = 1 := by
    rw [show ((9400 : ℝ) / 9400) = 1 by norm_num]
    exact Real.one_rpow _
  constructor
  · norm_num
  · rw [takeoff_fst_eq, takeoff_fst_eq]
    simp only [MAX_TAKEOFF_WEIGHT_LBS, BASE_TAKEOFF_GROUND_ROLL_FT,
      calculate_density_altitude, RUNWAY_CONDITION_FACTORS, List.lookup]
    rw [hz, ho]
    norm_num

/-- C2 (amended): both outputs of `compute_takeoff` are monotonically
non-decreasing in OAT at fixed pressure altitude (hence in density altitude)
for every fixed choice of the other arguments; and whenever the
density-altitude factor 1 + 0.07 da / 1000 is nonnegative, they are
monotonically non-decreasing in gross weight for weights at least 0 and
monotonically non-increasing in headwind for every headwind at least 0. -/
theorem compute_takeoff_monotone_amended :
    (∀ (p w wind : ℝ) (c : String) (o1 o2 : ℝ), o1 ≤ o2 →
      (compute_takeoff p o1 w wind c).1 ≤ (compute_takeoff p o2 w wind c).1 ∧
      (compute_takeoff p o1 w wind c).2 ≤ (compute_takeoff p o2 w wind c).2) ∧
    (∀ (p o wind : ℝ) (c : String) (w1 w2 : ℝ), 0 ≤ w1 → w1 ≤ w2 →
      0 ≤ 1 + 0.07 * calculate_density_altitude p o / 1000 →
      (compute_takeoff p o w1 wind c).1 ≤ (compute_takeoff p o w2 wind c).1 ∧
      (compute_takeoff p o w1 wind c).2 ≤ (compute_takeoff p o w2 wind c).2) ∧
    (∀ (p o w : ℝ) (c : String) (h1 h2 : ℝ), 0 ≤ h1 → h1 ≤ h2 →
      0 ≤ 1 + 0.07 * calculate_density_altitude p o / 1000 →
      (compute_takeoff p o w h2 c).1 ≤ (compute_takeoff p o w h1 c).1 ∧
      (compute_takeoff p o w h2 c).2 ≤ (compute_takeoff p o w h1 c).2) := by
  have hf : ∀ c : String, (0 : ℝ) ≤ (RUNWAY_CONDITION_FACTORS.lookup c).getD 1.40 :=
    fun c => (runway_factor_pos c).le
  have hB1 : (0 : ℝ) ≤ BASE_TAKEOFF_GROUND_ROLL_FT := by
    simp [BASE_TAKEOFF_GROUND_ROLL_FT]
  have hB2 : (0 : ℝ) ≤ BASE_TAKEOFF_TO_50FT_FT := by
    simp [BASE_TAKEOFF_TO_50FT_FT]
  refine ⟨fun p w wind c o1 o2 ho => ?_, fun p o wind c w1 w2 hw1 hw hd => ?_,
    fun p o w c h1 h2 hh1 hh hd => ?_⟩
  · have hda : calculate_density_altitude p o1 ≤ calculate_density_altitude p o2 := by
      simp only [calculate_density_altitude]
      linarith
    have hd12 : 1 + 0.07 * calculate_density_altitude p o1 / 1000 ≤
        1 + 0.07 * calculate_density_altitude p o2 / 1000 := by linarith
    constructor
    · rw [takeoff_fst_eq, takeoff_fst_eq]
      exact mul_le_mul_of_nonneg_right
        (mul_le_mul_of_nonneg_right
          (mul_le_mul_of_nonneg_left hd12
            (mul_nonneg hB1 (rpow_threeHalves_nonneg _)))
          (wind_factor_nonneg wind)) (hf c)
    · rw [takeoff_snd_eq, takeoff_snd_eq]
      exact mul_le_mul_of_nonneg_right
        (mul_le_mul_of_nonneg_right
          (mul_le_mul_of_nonneg_left hd12
            (mul_nonneg hB2 (rpow_threeHalves_nonneg _)))
          (wind_factor_nonneg wind)) (hf c)
  · have hr : (w1 / MAX_TAKEOFF_WEIGHT_LBS) ^ (1.5 : ℝ) ≤
        (w2 / MAX_TAKEOFF_WEIGHT_LBS) ^ (1.5 : ℝ) := by
      refine Real.rpow_le_rpow (div_nonneg hw1 ?_) ?_ (by norm_num)
      · simp [MAX_TAKEOFF_WEIGHT_LBS]
      · have : (0 : ℝ) < MAX_TAKEOFF_WEIGHT_LBS := by simp [MAX_TAKEOFF_WEIGHT_LBS]
        exact div_le_div_of_nonneg_right hw this.le
    constructor
    · rw [takeoff_fst_eq, takeoff_fst_eq]
      exact mul_le_mul_of_nonneg_right
        (mul_le_mul_of_nonneg_right
          (mul_le_mul_of_nonneg_right
            (mul_le_mul_of_nonneg_left hr hB1) hd)
          (wind_factor_nonneg wind)) (hf c)
    · rw [takeoff_snd_eq, takeoff_snd_eq]
      exact mul_le_mul_of_nonneg_right
        (mul_le_mul_of_nonneg_right
          (mul_le_mul_of_nonneg_right
            (mul_le_mul_of_nonneg_left hr hB2) hd)
          (wind_factor_nonneg wind)) (hf c)
  · have hm : max (1 - 0.1 * h2 / 9) 0.5 ≤ max (1 - 0.1 * h1 / 9) 0.5 :=
      max_le_max (by linarith) le_rfl
    constructor
    · rw [takeoff_fst_eq, takeoff_fst_eq]
      exact mul_le_mul_of_nonneg_right
        (mul_le_mul_of_nonneg_left hm
          (mul_nonneg (mul_nonneg hB1 (rpow_threeHalves_nonneg _)) hd)) (hf c)
    · rw [takeoff_snd_eq, takeoff_snd_eq]
      exact mul_le_mul_of_nonneg_right
        (mul_le_mul_of_nonneg_left hm
          (mul_nonneg (mul_nonneg hB2 (rpow_threeHalves_nonneg _)) hd)) (hf c)

/-- C2 witness: the weight-monotonicity part of the amended statement at the
concrete point (sea level, ISA, grass strip, weights 8000 and 9400 lbs). -/
theorem compute_takeoff_monotone_witness :
    (0 : ℝ) ≤ 8000 ∧ (8000 : ℝ) ≤ 9400 ∧
    (0 : ℝ) ≤ 1 + 0.07 * calculate_density_altitude 0 15 / 1000 ∧
    ((compute_takeoff 0 15 8000 0 "Grass").1 ≤ (compute_takeoff 0 15 9400 0 "Grass").1 ∧
     (compute_takeoff 0 15 8000 0 "Grass").2 ≤ (compute_takeoff 0 15 9400 0 "Grass").2) := by
  have hd : (0 : ℝ) ≤ 1 + 0.07 * calculate_density_altitude 0 15 / 1000 := by
    norm_num [calculate_density_altitude]
  exact ⟨by norm_num, by norm_num, hd,
    compute_takeoff_monotone_amended.2.1 0 15 0 "Grass" 8000 9400 (by norm_num)
      (by norm_num) hd⟩

/-- C3: `compute_climb_rate` never returns a negative value, for every pressure
altitude, OAT and weight, because the result is floored at 0 by the final
`max climb 0`. -/
theorem compute_climb_rate_nonneg (pressure_alt_ft oat_c weight_lbs : ℝ) :
    0 ≤ compute_climb_rate pressure_alt_ft oat_c weight_lbs := by
  simp only [compute_climb_rate]
  exact le_max_right _ _

/-- C4: `compute_landing` clamps its weight argument to the 8000 lbs maximum
landing weight before computing, so any two weights at least 8000 lbs give
identical output pairs, equal to the output at exactly 8000 lbs. -/
theorem compute_landing_clamps (p o wind : ℝ) (c : String) (w1 w2 : ℝ)
    (h1 : 8000 ≤ w1) (h2 : 8000 ≤ w2) :
    compute_landing p o w1 wind c = compute_landing p o w2 wind c ∧
    compute_landing p o w1 wind c = compute_landing p o 8000 wind c := by
  have e : ∀ w : ℝ, 8000 ≤ w → min w MAX_LANDING_WEIGHT_LBS = MAX_LANDING_WEIGHT_LBS := by
    intro w hw
    simp only [MAX_LANDING_WEIGHT_LBS]
    exact min_eq_right hw
  simp only [compute_landing, e w1 h1, e w2 h2, e 8000 le_rfl]
  exact ⟨trivial, trivial⟩

/-- C4 witness: landing outputs at 9000 lbs coincide with the outputs at the
8000 lbs maximum landing weight. -/
theorem compute_landing_clamps_witness :
    (8000 : ℝ) ≤ 9000 ∧
    (compute_landing 500 20 9000 5 "Grass" = compute_landing 500 20 8000 5 "Grass" ∧
     compute_landing 500 20 9000 5 "Grass" = compute_landing 500 20 8000 5 "Grass") :=
  ⟨by norm_num,
    compute_landing_clamps 500 20 5 "Grass" 9000 8000 (by norm_num) (by norm_num)⟩

theorem string_append_if (c : Prop) [Decidable c] (s t : String) :
    (if c then s ++ t else s) = s ++ (if c then t else "") := by
  split <;> simp

/-- C5: `compute_weight_balance` totals empty weight + fuel at 6 lbs per gal +
hopper at 8 lbs per gal + pilot weight; the status is "Within limits" when the
total is at most 9400 lbs and "Overweight!" when it exceeds 9400 lbs, with
" (Exceeds max landing weight)" appended exactly when the total exceeds
8000 lbs. -/
theorem compute_weight_balance_spec (empty_weight_lbs fuel_gal hopper_gal pilot_weight_lbs : ℝ) :
    (compute_weight_balance empty_weight_lbs fuel_gal hopper_gal pilot_weight_lbs).1 =
      empty_weight_lbs + fuel_gal * 6.0 + hopper_gal * 8.0 + pilot_weight_lbs ∧
    (compute_weight_balance empty_weight_lbs fuel_gal hopper_gal pilot_weight_lbs).2 =
      (if empty_weight_lbs + fuel_gal * 6.0 + hopper_gal * 8.0 + pilot_weight_lbs ≤ 9400
        then "Within limits" else "Overweight!") ++
      (if 8000 < empty_weight_lbs + fuel_gal * 6.0 + hopper_gal * 8.0 + pilot_weight_lbs
        then " (Exceeds max landing weight)" else "") := by
  refine ⟨rfl, ?_⟩
  simp only [compute_weight_balance, MAX_TAKEOFF_WEIGHT_LBS, MAX_LANDING_WEIGHT_LBS,
    gt_iff_lt]
  rw [string_append_if]

/-- C6: `compute_stall_speed` is the 68 mph base stall speed times the square
root of weight over the 8000 lbs maximum landing weight, hence monotonically
non-decreasing in weight, and exactly 68 at 8000 lbs. -/
theorem compute_stall_speed_spec :
    (∀ w : ℝ, 0 ≤ w → compute_stall_speed w = 68 * Real.sqrt (w / 8000)) ∧
    (∀ w1 w2 : ℝ, 0 ≤ w1 → w1 ≤ w2 → compute_stall_speed w1 ≤ compute_stall_speed w2) ∧
    compute_stall_speed 8000 = 68 := by
  refine ⟨fun w hw => ?_, fun w1 w2 h1 h2 => ?_, ?_⟩
  · simp [compute_stall_speed, BASE_STALL_FLAPS_DOWN_MPH, MAX_LANDING_WEIGHT_LBS]
  · simp only [compute_stall_speed, BASE_STALL_FLAPS_DOWN_MPH, MAX_LANDING_WEIGHT_LBS]
    have h : w1 / 8000 ≤ w2 / 8000 := by linarith
    exact mul_le_mul_of_nonneg_left (Real.sqrt_le_sqrt h) (by norm_num)
  · simp only [compute_stall_speed, BASE_STALL_FLAPS_DOWN_MPH, MAX_LANDING_WEIGHT_LBS]
    rw [show (8000 : ℝ) / 8000 = 1 by norm_num, Real.sqrt_one, mul_one]

/-- C6 witness: the stall-speed equation and monotonicity at the concrete
weights 6000 and 8000 lbs, and the exact 68 mph value at 8000 lbs. -/
theorem compute_stall_speed_witness :
    (0 : ℝ) ≤ 6000 ∧ (6000 : ℝ) ≤ 8000 ∧
    compute_stall_speed 6000 = 68 * Real.sqrt (6000 / 8000) ∧
    compute_stall_speed 6000 ≤ compute_stall_speed 8000 ∧
    compute_stall_speed 8000 = 68 :=
  ⟨by norm_num, by norm_num, compute_stall_speed_spec.1 6000 (by norm_num),
   compute_stall_speed_spec.2.1 6000 8000 (by norm_num) (by norm_num),
   compute_stall_speed_spec.2.2⟩

/-- C7: `adjust_for_wind` multiplies the value by max(1 - 0.1 wind / 9, 0.5),
so the wind factor never falls below 0.5, and zero wind is the identity. -/
theorem adjust_for_wind_spec :
    (∀ value wind_kts : ℝ,
      adjust_for_wind value wind_kts = value * max (1 - 0.1 * wind_kts / 9) 0.5) ∧
    (∀ value : ℝ, adjust_for_wind value 0 = value) := by
  refine ⟨fun v w => rfl, fun v => ?_⟩
  simp only [adjust_for_wind]
  rw [show (1 : ℝ) - 0.1 * 0 / 9 = 1 by norm_num,
    max_eq_left (by norm_num : (0.5 : ℝ) ≤ 1), mul_one]

theorem lookup_eq_none_of_not_mem_keys {β : Type} {c : String} {l : List (String × β)}
    (h : c ∉ l.map Prod.fst) : l.lookup c = none := by
  induction l with
  | nil => rfl
  | cons kv l ih =>
    obtain ⟨k, v⟩ := kv
    simp only [List.map_cons, List.mem_cons, not_or] at h
    have hk : (c == k) = false := beq_eq_false_iff_ne.mpr h.1
    simp [List.lookup, hk, ih h.2]

/-- C8: `adjust_for_runway_condition` is the identity for "Dry hard surface"
(table factor exactly 1.00) and multiplies by the 1.40 fallback for every
condition label not in the table. -/
theorem adjust_for_runway_condition_spec :
    (∀ value : ℝ, adjust_for_runway_condition value "Dry hard surface" = value) ∧
    (∀ (value : ℝ) (c : String), c ∉ RUNWAY_CONDITION_FACTORS.map Prod.fst →
      adjust_for_runway_condition value c = value * 1.40) := by
  constructor
  · intro v
    simp only [adjust_for_runway_condition, RUNWAY_CONDITION_FACTORS, List.lookup]
    norm_num
  · intro v c hc
    simp [adjust_for_runway_condition, lookup_eq_none_of_not_mem_keys hc]

/-- C8 witness: the fallback factor at the concrete unknown label "Snow". -/
theorem adjust_for_runway_condition_witness :
    "Snow" ∉ RUNWAY_CONDITION_FACTORS.map Prod.fst ∧
    adjust_for_runway_condition 2 "Snow" = 2 * 1.40 := by
  have h : "Snow" ∉ RUNWAY_CONDITION_FACTORS.map Prod.fst := by
    simp [RUNWAY_CONDITION_FACTORS]
  exact ⟨h, adjust_for_runway_condition_spec.2 2 "Snow" h⟩

/-- C9: the modelled preference store round-trips: saving a runway condition
for an item identifier and loading that identifier returns the same string,
and loading an identifier never saved returns `none` rather than failing. -/
theorem runway_condition_roundtrip :
    (∀ (store : List (String × String)) (item condition : String),
      load_runway_condition (save_runway_condition store item condition) item =
        some condition) ∧
    (∀ (store : List (String × String)) (item : String),
      item ∉ store.map Prod.fst → load_runway_condition store item = none) := by
  constructor
  · intro s i c
    simp [load_runway_condition, save_runway_condition, List.lookup]
  · intro s i hi
    exact lookup_eq_none_of_not_mem_keys hi

/-- C9 witness: a concrete save and load on the empty store, and a load of an
identifier that was never saved. -/
theorem runway_condition_roundtrip_witness :
    load_runway_condition (save_runway_condition [] "field-7" "Grass") "field-7" =
      some "Grass" ∧
    ("field-9" ∉ ([] : List (String × String)).map Prod.fst ∧
      load_runway_condition [] "field-9" = none) :=
  ⟨runway_condition_roundtrip.1 [] "field-7" "Grass",
   by simp, runway_condition_roundtrip.2 [] "field-9" (by simp)⟩

/-- C10: both takeoff outputs and both landing outputs go through the same
multiplicative adjustment chain, so each pair keeps its baseline proportion:
to-50ft times 1140 equals ground roll times 2600, and from-50ft times 600
equals landing ground roll times 1350, for every input. -/
theorem distance_outputs_proportional (p o w wind : ℝ) (c : String) :
    (compute_takeoff p o w wind c).2 * 1140 = (compute_takeoff p o w wind c).1 * 2600 ∧
    (compute_landing p o w wind c).2 * 600 = (compute_landing p o w wind c).1 * 1350 := by
  constructor
  · rw [takeoff_fst_eq, takeoff_snd_eq]
    simp only [BASE_TAKEOFF_GROUND_ROLL_FT, BASE_TAKEOFF_TO_50FT_FT]
    ring
  · simp only [compute_landing, adjust_for_weight, adjust_for_da, adjust_for_wind,
      adjust_for_runway_condition, BASE_LANDING_GROUND_ROLL_FT, BASE_LANDING_TO_50FT_FT]
    ring
